import Mathlib

/-!
Verification of the reverso_context_api client library.

This file gives a shallow embedding of the core of the repository
(`reverso_context_api/client.py`, `reverso_context_api/session.py`,
`reverso_context_api/misc.py`) and settles the specification claims
against it.

The embedding conventions:
* the HTTP transport is modelled by an environment value describing the
  responses the remote service would return (page totals, login page
  contents, cookies, final URLs, HTTP statuses);
* Python generators (`_translations_pager`, `_favorites_pager`) are
  modelled as fuel-indexed functions returning the list of requests the
  generator issues together with a flag telling whether the loop finished
  within the given fuel (`true` = the generator terminated);
* exceptions are modelled with explicit error values.
-/

namespace ReversoContext

/-! ### Pagination (client.py)

`_translations_pager`:
```
page_num, pages_total = 1, None
while page_num != pages_total:
    r = self._request_translations(..., page_num=page_num)
    contents = r.json()
    pages_total = contents["npages"]
    yield contents
    page_num += 1
```
`npagesF pageNum` below is the `npages` field of the response the service
returns for the request with page number `pageNum`.  The returned list is
the sequence of page numbers requested (each request is followed by one
yield, so it is also the list of yielded page numbers); the Bool is `true`
iff the `while` loop exited within the given fuel. -/

def transPagerAux (npagesF : Nat → Nat) : Nat → Nat → Option Nat → List Nat × Bool
  | 0, _, _ => ([], false)
  | fuel + 1, pageNum, pagesTotal =>
    if pagesTotal = some pageNum then ([], true)
    else
      let total := npagesF pageNum
      let rest := transPagerAux npagesF fuel (pageNum + 1) (some total)
      (pageNum :: rest.1, rest.2)

/-- The run of `_translations_pager`: `page_num` starts at 1, `pages_total`
starts as Python `None`. -/
def translationsPagerRun (npagesF : Nat → Nat) (fuel : Nat) : List Nat × Bool :=
  transPagerAux npagesF fuel 1 none

/-! `_favorites_pager`:
```
self._session.login()
start, total = 0, None
while True:
    r = self._request_favorites(source_lang, target_lang, start)
    contents = r.json()
    total = contents["numTotalResults"]
    yield contents
    start += FAVORITES_PAGE_SIZE
    if start >= total:
        break
```
`totalF start` is the `numTotalResults` field of the response for the
request issued with offset `start`.  The result is (list of offsets
requested, value of `start` after the loop, loop finished within fuel). -/

def FAVORITES_PAGE_SIZE : Nat := 50

def favPagerAux (totalF : Nat → Nat) : Nat → Nat → List Nat × Nat × Bool
  | 0, start => ([], start, false)
  | fuel + 1, start =>
    let total := totalF start
    let start' := start + FAVORITES_PAGE_SIZE
    if start' ≥ total then ([start], start', true)
    else
      let rest := favPagerAux totalF fuel start'
      (start :: rest.1, rest.2.1, rest.2.2)

/-- The request/offset trace of a `_favorites_pager` run (`start` begins
at 0). -/
def favoritesPagerOffsets (totalF : Nat → Nat) (fuel : Nat) : List Nat × Nat × Bool :=
  favPagerAux totalF fuel 0

/-- Events of a `_favorites_pager` run: the generator body first calls
`self._session.login()` and only then enters the request loop. -/
inductive FavEvent where
  | loginCall
  | pageRequest (start : Nat)
deriving DecidableEq

def favoritesPagerEvents (totalF : Nat → Nat) (fuel : Nat) : List FavEvent :=
  FavEvent.loginCall :: (favPagerAux totalF fuel 0).1.map FavEvent.pageRequest

/-- The smallest multiple of the favorites page size (50) that is at least
`T`, in closed form. -/
def smallestMult50Ge (T : Nat) : Nat :=
  FAVORITES_PAGE_SIZE * ((T + FAVORITES_PAGE_SIZE - 1) / FAVORITES_PAGE_SIZE)

/-! ### Session and login (session.py)

`ReversoSession` subclasses `requests.Session`; its `request` override
calls `raise_for_status` (which raises for statuses in `[400, 600)`).
JSON values and the pieces of remote state the login flow observes are
modelled explicitly below.  Unknown remote data (HTML bodies, cookie
values, URLs) is carried as opaque strings/options. -/

inductive JValue where
  | null
  | jbool (b : Bool)
  | jnum (n : Int)
  | jstr (s : String)
  | jarr (elems : List JValue)
  | jobj (fields : List (String × JValue))

/-- An HTTP response as far as `json_request` observes it: the status code
(`raise_for_status`), the decoded JSON object of the body, and the final
URL after redirects. -/
structure HttpResponse where
  status : Nat
  url : String
  contents : List (String × JValue)

/-- Python `contents["error"]`-style lookup in a decoded JSON object. -/
def jsonLookup (fields : List (String × JValue)) (k : String) : Option JValue :=
  (fields.find? (fun p => p.1 == k)).map (fun p => p.2)

/-- Outcome of `ReversoSession.json_request`: `raise_for_status` failure,
the Reverso error-in-body failure (`ReversoException(contents["error"],
response=r)`), or the returned response (whose `contents` field is the
decoded JSON of the body). -/
inductive RequestOutcome where
  | transportError (status : Nat)
  | remoteError (payload : Option JValue) (response : HttpResponse)
  | ok (response : HttpResponse)

/--
```
def json_request(self, method, url, data=None, **kwargs):
    r = self.request(method, url, json=data, **kwargs)   # raise_for_status
    contents = r.json()
    if "error" in contents:  # Reverso returns errors in body
        raise ReversoException(contents["error"], response=r)
    return r
```
-/
def json_request (r : HttpResponse) : RequestOutcome :=
  if 400 ≤ r.status ∧ r.status < 600 then .transportError r.status
  else if (jsonLookup r.contents "error").isSome then
    .remoteError (jsonLookup r.contents "error") r
  else .ok r

/-! The login flow. -/

def LOGIN_URL : String := "https://account.reverso.net/Account/Login"

def RETURN_URL : String := "https://context.reverso.net/translation/"

def ANTIFORGERY_COOKIE_NAME : String := "Reverso.Account.Antiforgery"

/-- Mutable session state: `self._credentials`, `self.logged_in`, and the
cookie jar `self.cookies` (an association list name ↦ value). -/
structure SessionState where
  credentials : Option (String × String)
  logged_in : Bool
  cookies : List (String × String)
deriving DecidableEq

/-- `ReversoSession.__init__`: stores the credentials, sets
`self.logged_in = False`; the jar starts empty. -/
def mkReversoSession (credentials : Option (String × String)) : SessionState :=
  ⟨credentials, false, []⟩

/-- The session-state invariant of claim C10: a session that believes it
is logged in has credentials stored. -/
def sessionInv (st : SessionState) : Prop :=
  st.logged_in = true → st.credentials ≠ none

/-- What the remote service would answer during one login attempt:
the GET of the login page (its HTTP status, the value of the hidden
`__RequestVerificationToken` input if the HTML contains one, the
`Reverso.Account.Antiforgery` cookie the response sets if any) and the
POST of the credentials (its status and its final URL after redirects). -/
structure LoginEnv where
  tokenPageStatus : Nat
  tokenInput : Option String
  antiforgeryCookieSet : Option String
  postStatus : Nat
  postFinalUrl : String
deriving DecidableEq

inductive NetReq where
  | getLoginPage
  | postCredentials
deriving DecidableEq

/-- The errors `login` can raise.  In the source they are all
`ReversoException` with distinct messages; the spec's taxonomy maps
`tokenNotFound`, `missingAntiforgeryCookie` and `invalidCredentials` to
`AuthenticationError`, `configurationError` to `ConfigurationError`, and
`transportError` to `TransportError`. -/
inductive RevError where
  | configurationError
  | transportError (status : Nat)
  | tokenNotFound
  | missingAntiforgeryCookie
  | invalidCredentials
deriving DecidableEq

def RevError.isAuthentication : RevError → Bool
  | .tokenNotFound => true
  | .missingAntiforgeryCookie => true
  | .invalidCredentials => true
  | _ => false

structure LoginResult where
  error : Option RevError
  state : SessionState
  trace : List NetReq
deriving DecidableEq

def setCookie (jar : List (String × String)) (name val : String) :
    List (String × String) :=
  (name, val) :: jar.filter (fun p => p.1 != name)

def cookieGet (jar : List (String × String)) (name : String) : Option String :=
  (jar.find? (fun p => p.1 == name)).map (fun p => p.2)

/-- The cookie jar after the GET of the login page (the transport stores
cookies set by the response before `raise_for_status` runs). -/
def jarAfterLoginPage (st : SessionState) (env : LoginEnv) :
    List (String × String) :=
  match env.antiforgeryCookieSet with
  | some v => setCookie st.cookies ANTIFORGERY_COOKIE_NAME v
  | none => st.cookies

/-- Python `if not antiforgery_cookie`: `cookies.get` returned `None`, or
the value is falsy (empty string). -/
def cookieFalsy : Option String → Bool
  | none => true
  | some v => v == ""

/--
`ReversoSession.login` together with its helpers
`_get_request_validation_token` and `_request_login`:
```
def login(self):
    if self._credentials is None:
        raise ReversoException("You have to set credentials to be able to log in")
    if self.logged_in:
        return
    request_verification_token = self._get_request_validation_token()
    antiforgery_cookie = self.cookies.get("Reverso.Account.Antiforgery")
    if not antiforgery_cookie:
        raise ReversoException("Could not log in: cannot retrieve antiforgery cookie")
    self._request_login(request_verification_token)
    self.logged_in = True
```
`_get_request_validation_token` GETs the login page (raising on HTTP
error), finds the hidden input named `__RequestVerificationToken` and
raises if it is absent.  `_request_login` POSTs the credentials plus the
token (raising on HTTP error) and raises when the final response URL
differs from `RETURN_URL`.  The result records the raised error (if any),
the session state afterwards, and the network requests performed. -/
def login (st : SessionState) (env : LoginEnv) : LoginResult :=
  match st.credentials with
  | none => ⟨some .configurationError, st, []⟩
  | some _ =>
    if st.logged_in then ⟨none, st, []⟩
    else
      let st1 : SessionState := { st with cookies := jarAfterLoginPage st env }
      if 400 ≤ env.tokenPageStatus ∧ env.tokenPageStatus < 600 then
        ⟨some (.transportError env.tokenPageStatus), st1, [.getLoginPage]⟩
      else
        match env.tokenInput with
        | none => ⟨some .tokenNotFound, st1, [.getLoginPage]⟩
        | some _ =>
          if cookieFalsy (cookieGet st1.cookies ANTIFORGERY_COOKIE_NAME) then
            ⟨some .missingAntiforgeryCookie, st1, [.getLoginPage]⟩
          else if 400 ≤ env.postStatus ∧ env.postStatus < 600 then
            ⟨some (.transportError env.postStatus), st1,
              [.getLoginPage, .postCredentials]⟩
          else if env.postFinalUrl ≠ RETURN_URL then
            ⟨some .invalidCredentials, st1, [.getLoginPage, .postCredentials]⟩
          else
            ⟨none, { st1 with logged_in := true },
              [.getLoginPage, .postCredentials]⟩

/-! ### Result normalization (client.py)

`Client._cleanup_html_tags` is `re.sub(r"<.*?>", "", text)`.  The regex
scans left to right; at a `<` it matches up to the nearest following `>`
(non-greedy), where `.` does not match a newline; matched substrings are
removed, everything else is kept.  `findTagEnd rest` returns the text
after the closing `>` of a tag opened just before `rest`, or `none` when
no `>` occurs before a newline or the end of the text (in which case the
regex has no match at this position and scanning moves one character
forward). -/

def findTagEnd : List Char → Option (List Char)
  | [] => none
  | c :: rest =>
    if c = '>' then some rest
    else if c = '\n' then none
    else findTagEnd rest

theorem findTagEnd_length :
    ∀ {l l' : List Char}, findTagEnd l = some l' → l'.length < l.length := by
  intro l
  induction l with
  | nil => intro l' h; simp [findTagEnd] at h
  | cons c rest ih =>
    intro l' h
    simp only [findTagEnd] at h
    split at h
    · injection h with h
      subst h
      simp
    · split at h
      · exact absurd h (by simp)
      · exact Nat.lt_trans (ih h) (by simp)

def stripTags : List Char → List Char
  | [] => []
  | c :: rest =>
    if c = '<' then
      match _hf : findTagEnd rest with
      | some rest' => stripTags rest'
      | none => c :: stripTags rest
    else c :: stripTags rest
termination_by l => l.length
decreasing_by
  · exact Nat.lt_trans (findTagEnd_length _hf) (by simp)
  · simp
  · simp

/-- `true` iff some substring of the text matches `<.*?>`, i.e. some `<`
is followed by a `>` with no intervening newline. -/
def hasTagFrom : List Char → Bool
  | [] => false
  | c :: rest => (c == '<' && (findTagEnd rest).isSome) || hasTagFrom rest

/-- String-level `Client._cleanup_html_tags`. -/
def _cleanup_html_tags (text : String) : String :=
  ⟨stripTags text.data⟩

/-- String-level tag-occurrence test. -/
def hasHtmlTag (text : String) : Bool :=
  hasTagFrom text.data

/-! `Client._process_fav_entry`:
```
entry_fields_map = {
    "srcLang": "source_lang",
    "srcText": "source_text",
    "srcContext": "source_context",
    "trgLang": "target_lang",
    "trgText": "target_text",
    "trgContext": "target_context"
}
fields_to_clean = {"srcContext", "trgContext"}
processed_entry = {}
for field_from, field_to in entry_fields_map.items():
    val = entry[field_from]
    if cleanup and field_from in fields_to_clean:
        val = self._cleanup_html_tags(val)
    processed_entry[field_to] = val
return processed_entry
```
The raw entry is modelled as a total map from remote field names to
string values; the processed entry is the association list built in the
dict's (insertion) iteration order. -/

def entry_fields_map : List (String × String) :=
  [("srcLang", "source_lang"), ("srcText", "source_text"),
   ("srcContext", "source_context"), ("trgLang", "target_lang"),
   ("trgText", "target_text"), ("trgContext", "target_context")]

def fields_to_clean : List String := ["srcContext", "trgContext"]

def _process_fav_entry (entry : String → String) (cleanup : Bool) :
    List (String × String) :=
  entry_fields_map.map (fun fp =>
    (fp.2,
      if cleanup && fields_to_clean.contains fp.1 then
        _cleanup_html_tags (entry fp.1)
      else entry fp.1))

/-! ### Helper lemmas -/

theorem smallestMult50Ge_spec (T : Nat) :
    T ≤ smallestMult50Ge T ∧ 50 ∣ smallestMult50Ge T ∧
      ∀ m, 50 ∣ m → T ≤ m → smallestMult50Ge T ≤ m := by
  refine ⟨?_, ?_, ?_⟩
  · simp only [smallestMult50Ge, FAVORITES_PAGE_SIZE]
    omega
  · exact ⟨_, rfl⟩
  · intro m hm hTm
    simp only [smallestMult50Ge, FAVORITES_PAGE_SIZE]
    omega

/-! Helper lemmas about the numbered pager with every response reporting
`npages = 1`: the loop never exits (the loop variable is already 2 when
`pages_total` first becomes 1) and each unit of fuel produces one more
request. -/

theorem transPagerAux_one_diverges (fuel pageNum : Nat) (h : 2 ≤ pageNum) :
    (transPagerAux (fun _ => 1) fuel pageNum (some 1)).2 = false ∧
      (transPagerAux (fun _ => 1) fuel pageNum (some 1)).1.length = fuel := by
  induction fuel generalizing pageNum with
  | zero => simp [transPagerAux]
  | succ n ih =>
    have hne : (some 1 : Option Nat) ≠ some pageNum := by
      intro hc
      injection hc with hc
      omega
    simp only [transPagerAux, if_neg hne]
    have := ih (pageNum + 1) (by omega)
    simp [this.1, this.2]

/-! Helper lemmas about the offset pager with a constant total `T`. -/

theorem favPagerAux_terminates (T : Nat) :
    ∀ fuel start, 1 ≤ fuel → T ≤ start + 50 * fuel →
      (favPagerAux (fun _ => T) fuel start).2.2 = true := by
  intro fuel
  induction fuel with
  | zero => intro start h1 _; omega
  | succ n ih =>
    intro start _ hle
    simp only [favPagerAux, FAVORITES_PAGE_SIZE]
    split
    · rfl
    · rename_i hlt
      have hn : 1 ≤ n := by omega
      exact ih (start + 50) hn (by omega)

theorem favPagerAux_final (T : Nat) :
    ∀ fuel start, (favPagerAux (fun _ => T) fuel start).2.2 = true →
      (favPagerAux (fun _ => T) fuel start).2.1
          = start + 50 * (favPagerAux (fun _ => T) fuel start).1.length ∧
        T ≤ (favPagerAux (fun _ => T) fuel start).2.1 ∧
        ((favPagerAux (fun _ => T) fuel start).2.1 = start + 50 ∨
          (favPagerAux (fun _ => T) fuel start).2.1 < T + 50) ∧
        1 ≤ (favPagerAux (fun _ => T) fuel start).1.length := by
  intro fuel
  induction fuel with
  | zero => intro start h; simp [favPagerAux] at h
  | succ n ih =>
    intro start hdone
    simp only [favPagerAux, FAVORITES_PAGE_SIZE] at hdone ⊢
    split
    · rename_i hge
      refine ⟨by simp, by simpa using hge, by simp, by simp⟩
    · rename_i hlt
      simp only [if_neg hlt] at hdone
      have := ih (start + 50) hdone
      dsimp only
      refine ⟨?_, this.2.1, ?_, by simp⟩
      · simp only [List.length_cons]
        omega
      · rcases this.2.2.1 with h | h
        · right; omega
        · right; omega

/-! Path equations for `login`: one equation per control-flow path of the
source function, each under the hypotheses that select that path. -/

theorem login_eq_no_creds (st : SessionState) (env : LoginEnv)
    (h : st.credentials = none) :
    login st env = ⟨some .configurationError, st, []⟩ := by
  obtain ⟨creds, li, jar⟩ := st
  dsimp only at h
  subst h
  rfl

theorem login_eq_logged_in (st : SessionState) (env : LoginEnv) (c : String × String)
    (hc : st.credentials = some c) (hl : st.logged_in = true) :
    login st env = ⟨none, st, []⟩ := by
  obtain ⟨creds, li, jar⟩ := st
  dsimp only at hc hl
  subst hc hl
  rfl

theorem login_eq_transport_fail (st : SessionState) (env : LoginEnv) (c : String × String)
    (hc : st.credentials = some c) (hl : st.logged_in = false)
    (ht : 400 ≤ env.tokenPageStatus ∧ env.tokenPageStatus < 600) :
    login st env = ⟨some (.transportError env.tokenPageStatus),
      { st with cookies := jarAfterLoginPage st env }, [.getLoginPage]⟩ := by
  obtain ⟨creds, li, jar⟩ := st
  dsimp only at hc hl
  subst hc hl
  simp [login, ht]

theorem login_eq_token_missing (st : SessionState) (env : LoginEnv) (c : String × String)
    (hc : st.credentials = some c) (hl : st.logged_in = false)
    (ht : ¬(400 ≤ env.tokenPageStatus ∧ env.tokenPageStatus < 600))
    (hti : env.tokenInput = none) :
    login st env = ⟨some .tokenNotFound,
      { st with cookies := jarAfterLoginPage st env }, [.getLoginPage]⟩ := by
  obtain ⟨creds, li, jar⟩ := st
  dsimp only at hc hl
  subst hc hl
  simp [login, ht, hti]

theorem login_eq_cookie_missing (st : SessionState) (env : LoginEnv)
    (c : String × String) (t : String)
    (hc : st.credentials = some c) (hl : st.logged_in = false)
    (ht : ¬(400 ≤ env.tokenPageStatus ∧ env.tokenPageStatus < 600))
    (hti : env.tokenInput = some t)
    (hcf : cookieFalsy (cookieGet (jarAfterLoginPage st env) ANTIFORGERY_COOKIE_NAME) = true) :
    login st env = ⟨some .missingAntiforgeryCookie,
      { st with cookies := jarAfterLoginPage st env }, [.getLoginPage]⟩ := by
  obtain ⟨creds, li, jar⟩ := st
  dsimp only at hc hl
  subst hc hl
  simp [login, ht, hti, hcf]

theorem login_eq_post_transport_fail (st : SessionState) (env : LoginEnv)
    (c : String × String) (t : String)
    (hc : st.credentials = some c) (hl : st.logged_in = false)
    (ht : ¬(400 ≤ env.tokenPageStatus ∧ env.tokenPageStatus < 600))
    (hti : env.tokenInput = some t)
    (hcf : cookieFalsy (cookieGet (jarAfterLoginPage st env) ANTIFORGERY_COOKIE_NAME) = false)
    (hp : 400 ≤ env.postStatus ∧ env.postStatus < 600) :
    login st env = ⟨some (.transportError env.postStatus),
      { st with cookies := jarAfterLoginPage st env },
      [.getLoginPage, .postCredentials]⟩ := by
  obtain ⟨creds, li, jar⟩ := st
  dsimp only at hc hl
  subst hc hl
  simp [login, ht, hti, hcf, hp]

theorem login_eq_bad_url (st : SessionState) (env : LoginEnv)
    (c : String × String) (t : String)
    (hc : st.credentials = some c) (hl : st.logged_in = false)
    (ht : ¬(400 ≤ env.tokenPageStatus ∧ env.tokenPageStatus < 600))
    (hti : env.tokenInput = some t)
    (hcf : cookieFalsy (cookieGet (jarAfterLoginPage st env) ANTIFORGERY_COOKIE_NAME) = false)
    (hp : ¬(400 ≤ env.postStatus ∧ env.postStatus < 600))
    (hu : env.postFinalUrl ≠ RETURN_URL) :
    login st env = ⟨some .invalidCredentials,
      { st with cookies := jarAfterLoginPage st env },
      [.getLoginPage, .postCredentials]⟩ := by
  obtain ⟨creds, li, jar⟩ := st
  dsimp only at hc hl
  subst hc hl
  simp [login, ht, hti, hcf, hp, hu]

theorem login_eq_ok (st : SessionState) (env : LoginEnv)
    (c : String × String) (t : String)
    (hc : st.credentials = some c) (hl : st.logged_in = false)
    (ht : ¬(400 ≤ env.tokenPageStatus ∧ env.tokenPageStatus < 600))
    (hti : env.tokenInput = some t)
    (hcf : cookieFalsy (cookieGet (jarAfterLoginPage st env) ANTIFORGERY_COOKIE_NAME) = false)
    (hp : ¬(400 ≤ env.postStatus ∧ env.postStatus < 600))
    (hu : env.postFinalUrl = RETURN_URL) :
    login st env = ⟨none, ⟨st.credentials, true, jarAfterLoginPage st env⟩,
      [.getLoginPage, .postCredentials]⟩ := by
  obtain ⟨creds, li, jar⟩ := st
  dsimp only at hc hl
  subst hc hl
  simp [login, ht, hti, hcf, hp, hu]

/-- Exhaustive case analysis over the control-flow paths of `login`: any
property `P` follows once it is established on each of the eight paths. -/
theorem login_rec (st : SessionState) (env : LoginEnv) {P : Prop}
    (h0 : st.credentials = none →
      login st env = ⟨some .configurationError, st, []⟩ → P)
    (h1 : ∀ c, st.credentials = some c → st.logged_in = true →
      login st env = ⟨none, st, []⟩ → P)
    (h2 : ∀ c, st.credentials = some c → st.logged_in = false →
      400 ≤ env.tokenPageStatus ∧ env.tokenPageStatus < 600 →
      login st env = ⟨some (.transportError env.tokenPageStatus),
        { st with cookies := jarAfterLoginPage st env }, [.getLoginPage]⟩ → P)
    (h3 : ∀ c, st.credentials = some c → st.logged_in = false →
      env.tokenInput = none →
      login st env = ⟨some .tokenNotFound,
        { st with cookies := jarAfterLoginPage st env }, [.getLoginPage]⟩ → P)
    (h4 : ∀ c t, st.credentials = some c → st.logged_in = false →
      env.tokenInput = some t →
      cookieFalsy (cookieGet (jarAfterLoginPage st env) ANTIFORGERY_COOKIE_NAME) = true →
      login st env = ⟨some .missingAntiforgeryCookie,
        { st with cookies := jarAfterLoginPage st env }, [.getLoginPage]⟩ → P)
    (h5 : ∀ c t, st.credentials = some c → st.logged_in = false →
      env.tokenInput = some t →
      cookieFalsy (cookieGet (jarAfterLoginPage st env) ANTIFORGERY_COOKIE_NAME) = false →
      400 ≤ env.postStatus ∧ env.postStatus < 600 →
      login st env = ⟨some (.transportError env.postStatus),
        { st with cookies := jarAfterLoginPage st env },
        [.getLoginPage, .postCredentials]⟩ → P)
    (h6 : ∀ c t, st.credentials = some c → st.logged_in = false →
      env.tokenInput = some t →
      cookieFalsy (cookieGet (jarAfterLoginPage st env) ANTIFORGERY_COOKIE_NAME) = false →
      env.postFinalUrl ≠ RETURN_URL →
      login st env = ⟨some .invalidCredentials,
        { st with cookies := jarAfterLoginPage st env },
        [.getLoginPage, .postCredentials]⟩ → P)
    (h7 : ∀ c t, st.credentials = some c → st.logged_in = false →
      env.tokenInput = some t →
      cookieFalsy (cookieGet (jarAfterLoginPage st env) ANTIFORGERY_COOKIE_NAME) = false →
      env.postFinalUrl = RETURN_URL →
      login st env = ⟨none, ⟨st.credentials, true, jarAfterLoginPage st env⟩,
        [.getLoginPage, .postCredentials]⟩ → P) : P := by
  rcases hcr : st.credentials with _ | c
  · exact h0 hcr (login_eq_no_creds st env hcr)
  · rcases hli : st.logged_in with _ | _
    · by_cases ht : 400 ≤ env.tokenPageStatus ∧ env.tokenPageStatus < 600
      · exact h2 c hcr hli ht (login_eq_transport_fail st env c hcr hli ht)
      · rcases hti : env.tokenInput with _ | t
        · exact h3 c hcr hli hti (login_eq_token_missing st env c hcr hli ht hti)
        · rcases hcf : cookieFalsy
            (cookieGet (jarAfterLoginPage st env) ANTIFORGERY_COOKIE_NAME) with _ | _
          · by_cases hp : 400 ≤ env.postStatus ∧ env.postStatus < 600
            · exact h5 c t hcr hli hti hcf hp
                (login_eq_post_transport_fail st env c t hcr hli ht hti hcf hp)
            · by_cases hu : env.postFinalUrl = RETURN_URL
              · exact h7 c t hcr hli hti hcf hu
                  (login_eq_ok st env c t hcr hli ht hti hcf hp hu)
              · exact h6 c t hcr hli hti hcf hu
                  (login_eq_bad_url st env c t hcr hli ht hti hcf hp hu)
          · exact h4 c t hcr hli hti hcf
              (login_eq_cookie_missing st env c t hcr hli ht hti hcf)
    · exact h1 c hcr hli (login_eq_logged_in st env c hcr hli)

/-- On the success path (no error raised) with an actual attempt, the flag
is set, credentials are untouched, the handshake performed exactly one
GET and one POST, and the final URL matched `RETURN_URL`. -/
theorem login_ok_state (st : SessionState) (env : LoginEnv)
    (hl : st.logged_in = false) (h : (login st env).error = none) :
    (login st env).state.logged_in = true ∧
      (login st env).state.credentials = st.credentials ∧
      (login st env).trace = [NetReq.getLoginPage, NetReq.postCredentials] ∧
      env.postFinalUrl = RETURN_URL := by
  refine login_rec st env ?_ ?_ ?_ ?_ ?_ ?_ ?_ ?_
  · intro hcr heq; rw [heq] at h; exact absurd h (by simp)
  · intro c hcr hli heq; rw [hl] at hli; exact absurd hli (by simp)
  · intro c hcr hli ht heq; rw [heq] at h; exact absurd h (by simp)
  · intro c hcr hli hti heq; rw [heq] at h; exact absurd h (by simp)
  · intro c t hcr hli hti hcf heq; rw [heq] at h; exact absurd h (by simp)
  · intro c t hcr hli hti hcf hp heq; rw [heq] at h; exact absurd h (by simp)
  · intro c t hcr hli hti hcf hu heq; rw [heq] at h; exact absurd h (by simp)
  · intro c t hcr hli hti hcf hu heq
    rw [heq]
    exact ⟨rfl, rfl, rfl, hu⟩

/-- On every error path, the flag and the credentials are unchanged. -/
theorem login_err_preserves (st : SessionState) (env : LoginEnv) (e : RevError)
    (h : (login st env).error = some e) :
    (login st env).state.logged_in = st.logged_in ∧
      (login st env).state.credentials = st.credentials := by
  refine login_rec st env ?_ ?_ ?_ ?_ ?_ ?_ ?_ ?_
  · intro hcr heq; rw [heq]; exact ⟨rfl, rfl⟩
  · intro c hcr hli heq; rw [heq]; exact ⟨rfl, rfl⟩
  · intro c hcr hli ht heq; rw [heq]; exact ⟨rfl, rfl⟩
  · intro c hcr hli hti heq; rw [heq]; exact ⟨rfl, rfl⟩
  · intro c t hcr hli hti hcf heq; rw [heq]; exact ⟨rfl, rfl⟩
  · intro c t hcr hli hti hcf hp heq; rw [heq]; exact ⟨rfl, rfl⟩
  · intro c t hcr hli hti hcf hu heq; rw [heq]; exact ⟨rfl, rfl⟩
  · intro c t hcr hli hti hcf hu heq; rw [heq] at h; exact absurd h (by simp)

/-- Credentials are POSTed only after a verification token was extracted
and a truthy antiforgery cookie was found in the jar. -/
theorem login_post_requires (st : SessionState) (env : LoginEnv)
    (h : NetReq.postCredentials ∈ (login st env).trace) :
    env.tokenInput ≠ none ∧
      cookieFalsy (cookieGet (jarAfterLoginPage st env) ANTIFORGERY_COOKIE_NAME)
        = false := by
  refine login_rec st env ?_ ?_ ?_ ?_ ?_ ?_ ?_ ?_
  · intro hcr heq; rw [heq] at h; exact absurd h (by simp)
  · intro c hcr hli heq; rw [heq] at h; exact absurd h (by simp)
  · intro c hcr hli ht heq; rw [heq] at h; exact absurd h (by simp)
  · intro c hcr hli hti heq; rw [heq] at h; exact absurd h (by simp)
  · intro c t hcr hli hti hcf heq; rw [heq] at h; exact absurd h (by simp)
  · intro c t hcr hli hti hcf hp heq; exact ⟨by simp [hti], hcf⟩
  · intro c t hcr hli hti hcf hu heq; exact ⟨by simp [hti], hcf⟩
  · intro c t hcr hli hti hcf hu heq; exact ⟨by simp [hti], hcf⟩

theorem stripTags_nil : stripTags [] = [] := by
  simp [stripTags]

theorem stripTags_cons_ne {c : Char} (rest : List Char) (h : ¬c = '<') :
    stripTags (c :: rest) = c :: stripTags rest := by
  rw [stripTags]
  simp [h]

theorem stripTags_cons_some {rest rest' : List Char}
    (h : findTagEnd rest = some rest') :
    stripTags ('<' :: rest) = stripTags rest' := by
  rw [stripTags, if_pos rfl]
  split
  · rename_i r hr
    have hrr := hr.symm.trans h
    injection hrr with hrr
    rw [hrr]
  · rename_i hr
    rw [hr] at h
    exact absurd h (by simp)

theorem stripTags_cons_none {rest : List Char} (h : findTagEnd rest = none) :
    stripTags ('<' :: rest) = '<' :: stripTags rest := by
  rw [stripTags, if_pos rfl]
  split
  · rename_i r hr
    rw [hr] at h
    exact absurd h (by simp)
  · rfl

/-- Text with no tag occurrence is a fixed point of `stripTags`. -/
theorem stripTags_of_no_tag : ∀ l : List Char, hasTagFrom l = false → stripTags l = l := by
  intro l
  induction l with
  | nil => intro _; exact stripTags_nil
  | cons c rest ih =>
    intro h
    simp only [hasTagFrom, Bool.or_eq_false_iff, Bool.and_eq_false_iff] at h
    by_cases hc : c = '<'
    · subst hc
      rcases h.1 with h1 | h1
      · simp at h1
      · have h2 : findTagEnd rest = none := by
          rcases hf : findTagEnd rest with _ | r
          · rfl
          · rw [hf] at h1; simp at h1
        rw [stripTags_cons_none h2, ih h.2]
    · rw [stripTags_cons_ne rest hc, ih h.2]

/-- If no `>` closes a tag in `l` (before a newline), the same holds for
the stripped text: stripping keeps every newline and only ever removes
characters, so it cannot create a closing `>` before the first newline. -/
theorem findTagEnd_stripTags_none :
    ∀ l : List Char, findTagEnd l = none → findTagEnd (stripTags l) = none := by
  intro l
  induction l with
  | nil => intro _; simp [stripTags_nil, findTagEnd]
  | cons c rest ih =>
    intro h
    by_cases hgt : c = '>'
    · subst hgt
      simp [findTagEnd] at h
    · by_cases hnl : c = '\n'
      · subst hnl
        rw [stripTags_cons_ne rest (by decide)]
        rw [findTagEnd, if_neg (by decide : ¬('\n' : Char) = '>'), if_pos rfl]
      · rw [findTagEnd, if_neg hgt, if_neg hnl] at h
        by_cases hc : c = '<'
        · subst hc
          rw [stripTags_cons_none h]
          rw [findTagEnd, if_neg (by decide : ¬('<' : Char) = '>'),
            if_neg (by decide : ¬('<' : Char) = '\n')]
          exact ih h
        · rw [stripTags_cons_ne rest hc]
          rw [findTagEnd, if_neg hgt, if_neg hnl]
          exact ih h

/-- The output of `stripTags` contains no tag occurrence. -/
theorem hasTagFrom_stripTags : ∀ l : List Char, hasTagFrom (stripTags l) = false := by
  have H : ∀ n l, List.length l ≤ n → hasTagFrom (stripTags l) = false := by
    intro n
    induction n with
    | zero =>
      intro l hl
      have : l = [] := List.length_eq_zero.mp (Nat.le_zero.mp hl)
      subst this
      simp [stripTags_nil, hasTagFrom]
    | succ n ih =>
      intro l hl
      match l with
      | [] => simp [stripTags_nil, hasTagFrom]
      | c :: rest =>
        by_cases hc : c = '<'
        · subst hc
          rcases hf : findTagEnd rest with _ | rest'
          · rw [stripTags_cons_none hf]
            simp only [hasTagFrom, Bool.or_eq_false_iff, Bool.and_eq_false_iff]
            refine ⟨Or.inr ?_, ?_⟩
            · simp [findTagEnd_stripTags_none rest hf]
            · exact ih rest (by simpa using Nat.le_of_succ_le_succ (by simpa using hl))
          · rw [stripTags_cons_some hf]
            have h1 : rest'.length < rest.length := findTagEnd_length hf
            have h2 : rest.length + 1 ≤ n + 1 := by simpa using hl
            exact ih rest' (by omega)
        · rw [stripTags_cons_ne rest hc]
          simp only [hasTagFrom, Bool.or_eq_false_iff, Bool.and_eq_false_iff]
          refine ⟨Or.inl (by simpa using hc), ?_⟩
          exact ih rest (by simpa using Nat.le_of_succ_le_succ (by simpa using hl))
  exact fun l => H l.length l le_rfl

/-- `stripTags` is idempotent. -/
theorem stripTags_idem (l : List Char) : stripTags (stripTags l) = stripTags l :=
  stripTags_of_no_tag _ (hasTagFrom_stripTags l)

/-! ### Claim theorems -/

/-- C1: the claim states that with each response carrying `npages`, the
numbered pager issues exactly `npages` requests and yields pages
`1..npages`.  The code (`while page_num != pages_total` with the increment
before the next check) actually stops once the incremented `page_num`
equals the last reported `npages`: with every response reporting
`npages = 3` it issues only the two requests for pages 1 and 2 (the loop
exits, flag `true`) and never requests page 3. -/
theorem numbered_pager_npages3_run :
    translationsPagerRun (fun _ => 3) 10 = ([1, 2], true) ∧
      (translationsPagerRun (fun _ => 3) 10).1 ≠ [1, 2, 3] := by
  constructor
  · rfl
  · decide

/-- C2: the claim states that any constant-total stream (including
`npages = 1` for the numbered pager) makes the pager terminate after
finitely many requests.  With every response reporting `npages = 1` the
loop never exits: after the first iteration `page_num` is 2 and
`pages_total` stays 1, so for every fuel bound the run has not terminated
and has issued as many requests as the fuel allows (pages 1, 2, 3, ...). -/
theorem numbered_pager_npages1_diverges (fuel : Nat) :
    (translationsPagerRun (fun _ => 1) fuel).2 = false ∧
      (translationsPagerRun (fun _ => 1) fuel).1.length = fuel := by
  cases fuel with
  | zero => simp [translationsPagerRun, transPagerAux]
  | succ n =>
    simp only [translationsPagerRun, transPagerAux]
    rw [if_neg (by simp)]
    have h := transPagerAux_one_diverges n 2 (by omega)
    simp [h.1, h.2]

/-- C3 counterexample: with `numTotalResults = 0` the offset pager does
issue exactly one request and stop, but the offset variable after that
final request is 50, while the smallest multiple of the page size that is
`≥ 0` is 0.  The claim's universal clause therefore fails at 0. -/
theorem offset_pager_zero_total_counterexample :
    favoritesPagerOffsets (fun _ => 0) 1 = ([0], 50, true) ∧
      smallestMult50Ge 0 = 0 ∧
      (favoritesPagerOffsets (fun _ => 0) 1).2.1 ≠ smallestMult50Ge 0 := by
  refine ⟨rfl, rfl, by decide⟩

/-- C3 (amended): for every fixed `numTotalResults = T ≥ 1` the offset
pager terminates with the offset equal to the smallest multiple of 50
that is `≥ T`, having issued `⌈T/50⌉` requests; for `T = 0` it issues
exactly the single request at offset 0, yields that one page, and stops
(with the offset left at 50). -/
theorem offset_pager_final_offset (T : Nat) (hT : 1 ≤ T) :
    (∃ fuel,
      (favoritesPagerOffsets (fun _ => T) fuel).2.2 = true ∧
        (favoritesPagerOffsets (fun _ => T) fuel).2.1 = smallestMult50Ge T ∧
        (favoritesPagerOffsets (fun _ => T) fuel).1.length = (T + 49) / 50) ∧
      favoritesPagerOffsets (fun _ => 0) 1 = ([0], 50, true) := by
  have hfuel : 1 ≤ (T + 49) / 50 := by omega
  have hge : T ≤ 0 + 50 * ((T + 49) / 50) := by omega
  have hdone : (favPagerAux (fun _ => T) ((T + 49) / 50) 0).2.2 = true :=
    favPagerAux_terminates T ((T + 49) / 50) 0 hfuel hge
  have hfin := favPagerAux_final T ((T + 49) / 50) 0 hdone
  have h1 := hfin.1
  have h2 := hfin.2.1
  have h4 := hfin.2.2.2
  refine ⟨⟨(T + 49) / 50, hdone, ?_, ?_⟩, rfl⟩
  · simp only [favoritesPagerOffsets, smallestMult50Ge, FAVORITES_PAGE_SIZE]
    rcases hfin.2.2.1 with h | h <;> omega
  · simp only [favoritesPagerOffsets]
    rcases hfin.2.2.1 with h | h <;> omega

/-- C3 witness: a fixed total of 120 results: the pager terminates with
the offset at 150 (the smallest multiple of 50 that is at least 120),
having issued 3 requests. -/
theorem offset_pager_final_offset_witness :
    (∃ fuel,
      (favoritesPagerOffsets (fun _ => 120) fuel).2.2 = true ∧
        (favoritesPagerOffsets (fun _ => 120) fuel).2.1 = smallestMult50Ge 120 ∧
        (favoritesPagerOffsets (fun _ => 120) fuel).1.length = (120 + 49) / 50) ∧
      favoritesPagerOffsets (fun _ => 0) 1 = ([0], 50, true) :=
  offset_pager_final_offset 120 (by decide)

/-- C4: within a 2xx response, `json_request` raises the body-error
failure (carrying the `error` payload and the response) exactly when the
decoded JSON object contains an `error` key, and otherwise returns the
response carrying the decoded JSON. -/
theorem json_request_error_iff (r : HttpResponse)
    (h2 : 200 ≤ r.status ∧ r.status < 300) :
    (json_request r = .remoteError (jsonLookup r.contents "error") r ↔
      (jsonLookup r.contents "error").isSome = true) ∧
    ((jsonLookup r.contents "error").isSome = false → json_request r = .ok r) := by
  have hs : ¬(400 ≤ r.status ∧ r.status < 600) := by omega
  refine ⟨⟨?_, ?_⟩, ?_⟩
  · intro hjr
    by_contra hno
    have hnone : (jsonLookup r.contents "error").isSome = false := by
      simpa using hno
    simp [json_request, hs, hnone] at hjr
  · intro hsome
    simp [json_request, hs, hsome]
  · intro hnone
    simp [json_request, hs, hnone]

/-- C4 witness: a 2xx response whose body carries an `error` key. -/
theorem json_request_error_iff_witness :
    (json_request ⟨200, "u", [("error", JValue.jstr "bad")]⟩ =
        .remoteError
          (jsonLookup (⟨200, "u", [("error", JValue.jstr "bad")]⟩ :
            HttpResponse).contents "error")
          ⟨200, "u", [("error", JValue.jstr "bad")]⟩ ↔
      (jsonLookup (⟨200, "u", [("error", JValue.jstr "bad")]⟩ :
        HttpResponse).contents "error").isSome = true) ∧
    ((jsonLookup (⟨200, "u", [("error", JValue.jstr "bad")]⟩ :
        HttpResponse).contents "error").isSome = false →
      json_request ⟨200, "u", [("error", JValue.jstr "bad")]⟩ =
        .ok ⟨200, "u", [("error", JValue.jstr "bad")]⟩) :=
  json_request_error_iff ⟨200, "u", [("error", JValue.jstr "bad")]⟩ (by decide)

/-- C5: with credentials present and not yet logged in, a `login` run that
raises no error sets `logged_in` and had the final POST URL equal to
`RETURN_URL`; every run that raises leaves `logged_in` false (and the
credentials untouched), so the caller may retry `login`. -/
theorem login_success_and_failure (st : SessionState) (env : LoginEnv)
    (_hc : st.credentials ≠ none) (hl : st.logged_in = false) :
    ((login st env).error = none →
      (login st env).state.logged_in = true ∧ env.postFinalUrl = RETURN_URL) ∧
    (∀ e, (login st env).error = some e →
      (login st env).state.logged_in = false ∧
        (login st env).state.credentials = st.credentials) := by
  constructor
  · intro h
    have hok := login_ok_state st env hl h
    exact ⟨hok.1, hok.2.2.2⟩
  · intro e he
    have hp := login_err_preserves st env e he
    rw [hl] at hp
    exact ⟨hp.1, hp.2⟩

/-- C5 witness: a session with credentials, not logged in, against an
environment where the whole handshake succeeds. -/
theorem login_success_and_failure_witness :
    ((login ⟨some ("user", "pw"), false, []⟩
        ⟨200, some "tok", some "ck", 200, RETURN_URL⟩).error = none →
      (login ⟨some ("user", "pw"), false, []⟩
        ⟨200, some "tok", some "ck", 200, RETURN_URL⟩).state.logged_in = true ∧
        (⟨200, some "tok", some "ck", 200, RETURN_URL⟩ :
          LoginEnv).postFinalUrl = RETURN_URL) ∧
    (∀ e, (login ⟨some ("user", "pw"), false, []⟩
        ⟨200, some "tok", some "ck", 200, RETURN_URL⟩).error = some e →
      (login ⟨some ("user", "pw"), false, []⟩
        ⟨200, some "tok", some "ck", 200, RETURN_URL⟩).state.logged_in = false ∧
        (login ⟨some ("user", "pw"), false, []⟩
          ⟨200, some "tok", some "ck", 200, RETURN_URL⟩).state.credentials =
          (⟨some ("user", "pw"), false, []⟩ : SessionState).credentials) :=
  login_success_and_failure ⟨some ("user", "pw"), false, []⟩
    ⟨200, some "tok", some "ck", 200, RETURN_URL⟩ (by simp) rfl

/-- C6: credentials are never POSTed unless a verification token was
extracted from the login page and a truthy antiforgery cookie is in the
jar after that page was fetched; and when (during an actual attempt whose
login-page GET succeeded) the token input is absent or the cookie is
missing, `login` raises an authentication error with no POST in the
trace. -/
theorem login_no_post_before_token_and_cookie (st : SessionState) (env : LoginEnv) :
    (NetReq.postCredentials ∈ (login st env).trace →
      env.tokenInput ≠ none ∧
        cookieFalsy (cookieGet (jarAfterLoginPage st env) ANTIFORGERY_COOKIE_NAME)
          = false) ∧
    (st.credentials ≠ none → st.logged_in = false →
      ¬(400 ≤ env.tokenPageStatus ∧ env.tokenPageStatus < 600) →
      (env.tokenInput = none ∨
        cookieFalsy (cookieGet (jarAfterLoginPage st env) ANTIFORGERY_COOKIE_NAME)
          = true) →
      ∃ e, (login st env).error = some e ∧ e.isAuthentication = true ∧
        NetReq.postCredentials ∉ (login st env).trace) := by
  constructor
  · exact login_post_requires st env
  · intro hc hl ht hbad
    rcases hcr : st.credentials with _ | c
    · exact absurd hcr hc
    · rcases hti : env.tokenInput with _ | t
      · rw [login_eq_token_missing st env c hcr hl ht hti]
        exact ⟨.tokenNotFound, rfl, rfl, by simp⟩
      · rcases hbad with hbad | hcf
        · rw [hti] at hbad
          exact absurd hbad (by simp)
        · rw [login_eq_cookie_missing st env c t hcr hl ht hti hcf]
          exact ⟨.missingAntiforgeryCookie, rfl, rfl, by simp⟩

/-- C6 witness: login page HTML without the hidden token input. -/
theorem login_no_post_before_token_and_cookie_witness :
    ∃ e, (login ⟨some ("user", "pw"), false, []⟩
        ⟨200, none, some "ck", 200, RETURN_URL⟩).error = some e ∧
      e.isAuthentication = true ∧
      NetReq.postCredentials ∉ (login ⟨some ("user", "pw"), false, []⟩
        ⟨200, none, some "ck", 200, RETURN_URL⟩).trace :=
  (login_no_post_before_token_and_cookie ⟨some ("user", "pw"), false, []⟩
      ⟨200, none, some "ck", 200, RETURN_URL⟩).2
    (by simp) rfl (by decide) (Or.inl rfl)

/-- C7: after a successful `login`, a second `login` call is a pure no-op
(no error, same state, no network requests), so the handshake's single
GET+POST round happens once across both calls; and a favorites-pager run
calls `login` exactly once, as its first event, before any page
request. -/
theorem login_idempotent_and_favorites_single_login
    (st : SessionState) (env env2 : LoginEnv) (totalF : Nat → Nat) (fuel : Nat)
    (hc : st.credentials ≠ none) (hl : st.logged_in = false)
    (hs : (login st env).error = none) :
    login ((login st env).state) env2 = ⟨none, (login st env).state, []⟩ ∧
      (login st env).trace = [NetReq.getLoginPage, NetReq.postCredentials] ∧
      (favoritesPagerEvents totalF fuel).head? = some FavEvent.loginCall ∧
      (favoritesPagerEvents totalF fuel).count FavEvent.loginCall = 1 := by
  have hok := login_ok_state st env hl hs
  rcases hcr2 : (login st env).state.credentials with _ | c2
  · rw [hok.2.1] at hcr2
    exact absurd hcr2 hc
  · refine ⟨login_eq_logged_in _ env2 c2 hcr2 hok.1, hok.2.2.1, rfl, ?_⟩
    have hz : ((favPagerAux totalF fuel 0).1.map FavEvent.pageRequest).count
        FavEvent.loginCall = 0 := by
      rw [List.count_eq_zero]
      intro hmem
      rcases List.mem_map.mp hmem with ⟨n, _, hn⟩
      exact FavEvent.noConfusion hn
    simp [favoritesPagerEvents, List.count_cons, hz]

/-- C7 witness: a fully successful environment, then a second call; the
favorites pager is run with a constant zero total and fuel 1. -/
theorem login_idempotent_and_favorites_single_login_witness :
    login ((login ⟨some ("user", "pw"), false, []⟩
        ⟨200, some "tok", some "ck", 200, RETURN_URL⟩).state)
        ⟨200, some "tok", some "ck", 200, RETURN_URL⟩ =
      ⟨none, (login ⟨some ("user", "pw"), false, []⟩
        ⟨200, some "tok", some "ck", 200, RETURN_URL⟩).state, []⟩ ∧
    (login ⟨some ("user", "pw"), false, []⟩
        ⟨200, some "tok", some "ck", 200, RETURN_URL⟩).trace =
      [NetReq.getLoginPage, NetReq.postCredentials] ∧
    (favoritesPagerEvents (fun _ => 0) 1).head? = some FavEvent.loginCall ∧
    (favoritesPagerEvents (fun _ => 0) 1).count FavEvent.loginCall = 1 :=
  login_idempotent_and_favorites_single_login
    ⟨some ("user", "pw"), false, []⟩
    ⟨200, some "tok", some "ck", 200, RETURN_URL⟩
    ⟨200, some "tok", some "ck", 200, RETURN_URL⟩
    (fun _ => 0) 1 (by simp) rfl (by decide)

/-- C8: tag stripping is idempotent; a string with no substring matching
the non-greedy pattern (no `<` closed by a later `>` before a newline) is
returned unchanged; and the literal example strips as the spec states. -/
theorem cleanup_html_tags_props (s : String) :
    _cleanup_html_tags (_cleanup_html_tags s) = _cleanup_html_tags s ∧
      (hasHtmlTag s = false → _cleanup_html_tags s = s) ∧
      _cleanup_html_tags "<em>cellar door</em>" = "cellar door" := by
  refine ⟨?_, ?_, ?_⟩
  · simp only [_cleanup_html_tags]
    exact congrArg String.mk (stripTags_idem s.data)
  · intro h
    obtain ⟨d⟩ := s
    exact congrArg String.mk (stripTags_of_no_tag d h)
  · simp [_cleanup_html_tags, stripTags, findTagEnd]

/-- C8 witness: a tag-free string is a fixed point of the cleanup. -/
theorem cleanup_html_tags_props_witness :
    _cleanup_html_tags "plain text" = "plain text" :=
  (cleanup_html_tags_props "plain text").2.1 (by decide)

/-- C9: processing a favorites entry renames exactly the six remote
fields via the fixed map, tag-strips exactly the two context fields when
`cleanup` is requested, and passes every other field value through
unchanged. -/
theorem process_fav_entry_spec (entry : String → String) (cleanup : Bool) :
    _process_fav_entry entry cleanup =
      [("source_lang", entry "srcLang"),
       ("source_text", entry "srcText"),
       ("source_context",
         if cleanup then _cleanup_html_tags (entry "srcContext")
         else entry "srcContext"),
       ("target_lang", entry "trgLang"),
       ("target_text", entry "trgText"),
       ("target_context",
         if cleanup then _cleanup_html_tags (entry "trgContext")
         else entry "trgContext")] := by
  cases cleanup <;> rfl

/-- C10: the session invariant `logged_in → credentials present` holds
after construction (the flag starts false), is preserved by `login` (the
only operation that writes the flag; `json_request` touches neither
field), and `login` checks the credentials before the logged-in
short-circuit, so without credentials it always raises
`ConfigurationError` with an empty request trace, whatever the flag: the
last conjunct holds for every state, the flag-true credential-less state
included, which a swapped check order would not satisfy. -/
theorem session_invariant_props (creds : Option (String × String))
    (st : SessionState) (env : LoginEnv) :
    (mkReversoSession creds).logged_in = false ∧
      sessionInv (mkReversoSession creds) ∧
      (sessionInv st → sessionInv (login st env).state) ∧
      (st.credentials = none →
        login st env = ⟨some .configurationError, st, []⟩) := by
  refine ⟨rfl, ?_, ?_, fun h => login_eq_no_creds st env h⟩
  · intro h
    exact absurd h (by simp [mkReversoSession])
  · intro hinv
    refine login_rec st env ?_ ?_ ?_ ?_ ?_ ?_ ?_ ?_
    · intro hcr heq; rw [heq]; exact hinv
    · intro c hcr hli heq; rw [heq]; exact hinv
    · intro c hcr hli ht heq; rw [heq]; exact hinv
    · intro c hcr hli hti heq; rw [heq]; exact hinv
    · intro c t hcr hli hti hcf heq; rw [heq]; exact hinv
    · intro c t hcr hli hti hcf hp heq; rw [heq]; exact hinv
    · intro c t hcr hli hti hcf hu heq; rw [heq]; exact hinv
    · intro c t hcr hli hti hcf hu heq
      rw [heq]
      intro _
      rw [hcr]
      simp

/-- C10 witness: a credential-less session whose flag is (vacuously
claiming) `true`: `login` still raises the configuration error with an
empty trace, showing the credentials check precedes the logged-in
short-circuit. -/
theorem session_invariant_props_witness :
    (mkReversoSession (some ("user", "pw"))).logged_in = false ∧
      sessionInv (mkReversoSession (some ("user", "pw"))) ∧
      (sessionInv ⟨none, true, []⟩ →
        sessionInv (login ⟨none, true, []⟩
          ⟨200, some "tok", some "ck", 200, RETURN_URL⟩).state) ∧
      ((⟨none, true, []⟩ : SessionState).credentials = none →
        login ⟨none, true, []⟩ ⟨200, some "tok", some "ck", 200, RETURN_URL⟩ =
          ⟨some .configurationError, ⟨none, true, []⟩, []⟩) :=
  session_invariant_props (some ("user", "pw")) ⟨none, true, []⟩
    ⟨200, some "tok", some "ck", 200, RETURN_URL⟩

end ReversoContext
